import Mathlib

/-!
Shallow embedding of the ECS update core of `rust_game_tutorial` (src/src/main.rs
plus the behavior of its system modules as documented by the specification).

Machine integers of the source (`i32` coordinates and speeds, `u32` sizes,
`usize` spritesheet ids) are modelled as unbounded `Int` / `Nat`: the
specification states that positions range over unbounded integers, and every
quantity involved stays far below the 32-bit range in this program.
-/

namespace Game

/-- The four movement directions (`components::Direction`). -/
inductive Direction
  | Up
  | Down
  | Left
  | Right
deriving DecidableEq, Repr

/-- An SDL rectangle: integer top-left corner plus a width and height
(`sdl2::rect::Rect`; its stored width and height are C ints, hence `Nat`). -/
structure Rect where
  x : Int
  y : Int
  width : Nat
  height : Nat
deriving DecidableEq, Repr

/-- An integer 2D point (`sdl2::rect::Point`). -/
structure Point where
  x : Int
  y : Int
deriving DecidableEq, Repr

/-- A `Velocity` component: signed speed magnitude plus a facing direction. -/
structure Velocity where
  speed : Int
  direction : Direction
deriving DecidableEq, Repr

/-- A `Sprite` component: spritesheet id plus the displayed region. -/
structure Sprite where
  spritesheet : Nat
  region : Rect
deriving DecidableEq, Repr

/-- Default sprite used only as the out-of-bounds fallback of list indexing in
the model; every sequence indexed by the animator has exactly 3 frames, so it
is never produced. -/
def defaultSprite : Sprite :=
  { spritesheet := 0, region := { x := 0, y := 0, width := 0, height := 0 } }

/-- A `MovementAnimation` component, with the field set visible in the
exhaustive struct literals of `initialize_player` / `initialize_enemy`:
a frame counter and one walk-cycle sequence per direction. -/
structure MovementAnimation where
  current_frame : Nat
  up_frames : List Sprite
  down_frames : List Sprite
  left_frames : List Sprite
  right_frames : List Sprite
deriving DecidableEq, Repr

/-- The walk-cycle sequence of an animation for a given direction. -/
def MovementAnimation.framesFor (a : MovementAnimation) : Direction → List Sprite
  | Direction.Up => a.up_frames
  | Direction.Down => a.down_frames
  | Direction.Left => a.left_frames
  | Direction.Right => a.right_frames

/-- The per-frame movement command enum (`MovementCommand` in main.rs). -/
inductive MovementCommand
  | Stop
  | Move (d : Direction)
deriving DecidableEq, Repr

/-- `direction_spritesheet_row` from main.rs. -/
def direction_spritesheet_row : Direction → Int
  | Direction.Up => 3
  | Direction.Down => 0
  | Direction.Left => 1
  | Direction.Right => 2

/-- `character_animation_frames` from main.rs: the three walk frames for one
direction, laid out left to right in the spritesheet row selected by
`direction_spritesheet_row`. -/
def character_animation_frames (spritesheet : Nat) (top_left_frame : Rect)
    (direction : Direction) : List Sprite :=
  let frame_width := top_left_frame.width
  let frame_height := top_left_frame.height
  let y_offset := top_left_frame.y + (frame_height : Int) * direction_spritesheet_row direction
  (List.range 3).map fun i =>
    { spritesheet := spritesheet
      region :=
        { x := top_left_frame.x + (frame_width : Int) * (i : Int)
          y := y_offset
          width := frame_width
          height := frame_height } }

/-- Entity tags: main.rs creates each entity with exactly one of the two marker
components `KeyboardControlled` (the player) or `Enemy`. -/
inductive Tag
  | KeyboardControlled
  | Enemy
deriving DecidableEq, Repr

/-- One entity with the component bundle every entity of this program carries:
a tag, `Position` (a wrapped `Point`), `Velocity`, `Sprite`, and
`MovementAnimation`. -/
structure Entity where
  tag : Tag
  position : Point
  velocity : Velocity
  sprite : Sprite
  animation : MovementAnimation
deriving DecidableEq, Repr

/-- `initialize_player` from main.rs. -/
def initialize_player (player_spritesheet : Nat) : Entity :=
  let player_top_left_frame : Rect := { x := 0, y := 0, width := 26, height := 36 }
  let player_animation : MovementAnimation :=
    { current_frame := 0
      up_frames := character_animation_frames player_spritesheet player_top_left_frame Direction.Up
      down_frames := character_animation_frames player_spritesheet player_top_left_frame Direction.Down
      left_frames := character_animation_frames player_spritesheet player_top_left_frame Direction.Left
      right_frames := character_animation_frames player_spritesheet player_top_left_frame Direction.Right }
  { tag := Tag.KeyboardControlled
    position := { x := 0, y := 0 }
    velocity := { speed := 0, direction := Direction.Right }
    sprite := player_animation.right_frames.getD 0 defaultSprite
    animation := player_animation }

/-- `initialize_enemy` from main.rs. -/
def initialize_enemy (enemy_spritesheet : Nat) (position : Point) : Entity :=
  let enemy_top_left_frame : Rect := { x := 0, y := 0, width := 32, height := 36 }
  let enemy_animation : MovementAnimation :=
    { current_frame := 0
      up_frames := character_animation_frames enemy_spritesheet enemy_top_left_frame Direction.Up
      down_frames := character_animation_frames enemy_spritesheet enemy_top_left_frame Direction.Down
      left_frames := character_animation_frames enemy_spritesheet enemy_top_left_frame Direction.Left
      right_frames := character_animation_frames enemy_spritesheet enemy_top_left_frame Direction.Right }
  { tag := Tag.Enemy
    position := position
    velocity := { speed := 0, direction := Direction.Right }
    sprite := enemy_animation.right_frames.getD 0 defaultSprite
    animation := enemy_animation }

/-- The world after setup in `main`: one player (spritesheet 0) and three
enemies (spritesheet 1) at the positions hard-coded in main.rs. -/
def initialWorld : List Entity :=
  [initialize_player 0,
   initialize_enemy 1 { x := -150, y := -150 },
   initialize_enemy 1 { x := 150, y := -190 },
   initialize_enemy 1 { x := -150, y := 170 }]

/-- The four per-frame systems registered on the dispatcher in `main`. -/
inductive SystemName
  | Keyboard
  | AI
  | Physics
  | Animator
deriving DecidableEq, Repr

/-- The dependency lists passed to `DispatcherBuilder` in main.rs:
Keyboard with `&[]`, AI with `&[]`, Physics with `&["Keyboard", "AI"]`,
Animator with `&["Keyboard", "AI"]`. -/
def dispatcherDeps : SystemName → List SystemName
  | SystemName.Keyboard => []
  | SystemName.AI => []
  | SystemName.Physics => [SystemName.Keyboard, SystemName.AI]
  | SystemName.Animator => [SystemName.Keyboard, SystemName.AI]

/-- System `a` is required to finish before system `b` starts: `a` appears in
the dependency list `b` was registered with. The registered lists are flat
(no dependency has dependencies of its own except the empty lists of Keyboard
and AI), so this direct relation is already the full ordering the dispatcher
enforces. -/
def mustRunBefore (a b : SystemName) : Prop :=
  a ∈ dispatcherDeps b

instance (a b : SystemName) : Decidable (mustRunBefore a b) := by
  unfold mustRunBefore
  infer_instance

/-- Modelled from the spec: keyboard.rs is not under src/. The movement speed
written by the Keyboard system is "a fixed non-zero constant" (§4.2); the spec
leaves its exact value open, so the model fixes an arbitrary one. -/
def PLAYER_MOVEMENT_SPEED : Int := 20

/-- Modelled from the spec: keyboard.rs is not under src/. §4.2: `Move(d)`
sets speed to the fixed non-zero constant and direction to `d`; `Stop` sets
speed to 0 leaving direction unchanged; no command leaves velocity unchanged. -/
def keyboardVelocity (cmd : Option MovementCommand) (v : Velocity) : Velocity :=
  match cmd with
  | none => v
  | some MovementCommand.Stop => { v with speed := 0 }
  | some (MovementCommand.Move d) => { speed := PLAYER_MOVEMENT_SPEED, direction := d }

/-- Modelled from the spec: ai.rs is not under src/. §4.3 allows any
deterministic rule that writes enemy velocity without reading the Pending
Command, explicitly including a no-op stub; the model takes the stub. Its type
records that the rule sees only the enemy's own components, never the command. -/
def aiVelocity (v : Velocity) : Velocity := v

/-- Modelled from the spec: physics.rs is not under src/. §4.4: the unit
direction vectors are Up = -y, Down = +y, Left = -x, Right = +x, scaled by the
speed. -/
def step_vector (speed : Int) : Direction → Point
  | Direction.Up => { x := 0, y := -speed }
  | Direction.Down => { x := 0, y := speed }
  | Direction.Left => { x := -speed, y := 0 }
  | Direction.Right => { x := speed, y := 0 }

/-- Componentwise sum of two points. -/
def pointAdd (p q : Point) : Point := { x := p.x + q.x, y := p.y + q.y }

/-- A point scaled by a natural number. -/
def pointSmul (n : Nat) (p : Point) : Point := { x := (n : Int) * p.x, y := (n : Int) * p.y }

/-- Modelled from the spec: physics.rs is not under src/. §4.4: if speed > 0,
displace the position by the speed-scaled unit vector of the velocity's
direction, with no collision detection and no bounds clamping; otherwise the
position is untouched. -/
def physicsStepEntity (pos : Point) (v : Velocity) : Point :=
  if v.speed > 0 then pointAdd pos (step_vector v.speed v.direction) else pos

/-- Modelled from the spec: animator.rs is not under src/. §4.5: the walk-cycle
frame divisor, required only to be greater than 1 so the cycle is visibly
slower than the frame rate; the exact value is left open, so the model fixes
an arbitrary one. -/
def frame_divisor : Nat := 5

/-- Modelled from the spec: animator.rs is not under src/. §4.5: with speed 0,
show frame 0 of the current direction's sequence and reset the counter so
movement resumes from the first walk frame; with speed > 0, advance the
counter and show frame `(counter / frame_divisor) % 3` of the current
direction's sequence, except that a direction change while moving resets to
frame 0 of the new direction's sequence on that same step. The direction
change is detected against `prevDir`, the direction the entity's velocity held
before this frame's command systems ran, which the frame driver passes in. -/
def animatorStepEntity (prevDir : Direction) (v : Velocity)
    (anim : MovementAnimation) (_sprite : Sprite) : MovementAnimation × Sprite :=
  if v.speed = 0 then
    ({ anim with current_frame := 0 }, (anim.framesFor v.direction).getD 0 defaultSprite)
  else if v.direction ≠ prevDir then
    ({ anim with current_frame := 0 }, (anim.framesFor v.direction).getD 0 defaultSprite)
  else
    let counter := anim.current_frame + 1
    ({ anim with current_frame := counter },
     (anim.framesFor v.direction).getD ((counter / frame_divisor) % 3) defaultSprite)

/-- The Keyboard system over the world: for every entity tagged
KeyboardControlled, rewrite its velocity from the pending command; all other
entities are untouched. Tolerates zero, one, or many tagged entities. -/
def keyboardStep (cmd : Option MovementCommand) (w : List Entity) : List Entity :=
  w.map fun e =>
    if e.tag = Tag.KeyboardControlled then { e with velocity := keyboardVelocity cmd e.velocity }
    else e

/-- The AI system over the world: rewrites the velocity of every Enemy-tagged
entity by the command-independent AI rule. -/
def aiStep (w : List Entity) : List Entity :=
  w.map fun e =>
    if e.tag = Tag.Enemy then { e with velocity := aiVelocity e.velocity } else e

/-- The Physics system over the world. -/
def physicsStep (w : List Entity) : List Entity :=
  w.map fun e => { e with position := physicsStepEntity e.position e.velocity }

/-- The Animator system over the world. `prev` is the pre-frame world, from
which each entity's previous direction is read. -/
def animatorStep (prev w : List Entity) : List Entity :=
  List.zipWith
    (fun p e =>
      let r := animatorStepEntity p.velocity.direction e.velocity e.animation e.sprite
      { e with animation := r.1, sprite := r.2 })
    prev w

/-- One whole frame update, in the dependency order registered on the
dispatcher: Keyboard and AI complete before Physics and Animator run. Physics
and Animator touch disjoint components, so their relative order is immaterial. -/
def frameUpdate (cmd : Option MovementCommand) (w : List Entity) : List Entity :=
  animatorStep w (physicsStep (aiStep (keyboardStep cmd w)))

/-- The whole frame update restricted to one entity: no system reads another
entity's components, so the frame is a per-entity map (proved below). -/
def entityFrame (cmd : Option MovementCommand) (e : Entity) : Entity :=
  let prevDir := e.velocity.direction
  let v1 := if e.tag = Tag.KeyboardControlled then keyboardVelocity cmd e.velocity else e.velocity
  let v2 := if e.tag = Tag.Enemy then aiVelocity v1 else v1
  let pos := physicsStepEntity e.position v2
  let r := animatorStepEntity prevDir v2 e.animation e.sprite
  { e with velocity := v2, position := pos, animation := r.1, sprite := r.2 }

/-- The keycodes the event loop in `main` distinguishes; every other keycode
falls into its wildcard arm and is collapsed to `OtherKey`. -/
inductive Keycode
  | Escape
  | Left
  | Right
  | Up
  | Down
  | OtherKey
deriving DecidableEq, Repr

/-- The SDL events the event loop in `main` distinguishes: quit, key-down and
key-up (with an optional keycode and a repeat flag), and everything else. -/
inductive Event
  | Quit
  | KeyDown (keycode : Option Keycode) (isRepeat : Bool)
  | KeyUp (keycode : Option Keycode) (isRepeat : Bool)
  | OtherEvent
deriving DecidableEq, Repr

/-- Either the drain of one frame's events hit the quit arm (`break 'running`),
or it finished with a final value of the local `movement_command` slot. -/
inductive DrainResult
  | quit
  | command (cmd : Option MovementCommand)
deriving DecidableEq, Repr

/-- The event-handling `for` loop of one frame in `main`, with its `match`
arms in source order: `Quit` or a key-down of `Escape` (any repeat flag)
breaks out of the frame loop; a non-repeat key-down of an arrow key overwrites
the slot with the corresponding `Move`; a non-repeat key-up of an arrow key
overwrites it with `Stop`; every other event is ignored. -/
def drainEvents : List Event → Option MovementCommand → DrainResult
  | [], acc => DrainResult.command acc
  | e :: rest, acc =>
    match e with
    | Event.Quit => DrainResult.quit
    | Event.KeyDown (some Keycode.Escape) _ => DrainResult.quit
    | Event.KeyDown (some Keycode.Left) false =>
        drainEvents rest (some (MovementCommand.Move Direction.Left))
    | Event.KeyDown (some Keycode.Right) false =>
        drainEvents rest (some (MovementCommand.Move Direction.Right))
    | Event.KeyDown (some Keycode.Up) false =>
        drainEvents rest (some (MovementCommand.Move Direction.Up))
    | Event.KeyDown (some Keycode.Down) false =>
        drainEvents rest (some (MovementCommand.Move Direction.Down))
    | Event.KeyUp (some Keycode.Left) false => drainEvents rest (some MovementCommand.Stop)
    | Event.KeyUp (some Keycode.Right) false => drainEvents rest (some MovementCommand.Stop)
    | Event.KeyUp (some Keycode.Up) false => drainEvents rest (some MovementCommand.Stop)
    | Event.KeyUp (some Keycode.Down) false => drainEvents rest (some MovementCommand.Stop)
    | _ => drainEvents rest acc

/-- Whether an event hits one of the two `break 'running` arms. -/
def isQuitEvent : Event → Bool
  | Event.Quit => true
  | Event.KeyDown (some Keycode.Escape) _ => true
  | _ => false

/-- Per-event translation table, written from the spec's wording for the input
boundary to be compared against the drain loop: `some c` when the event
overwrites the slot with `c`, `none` when the event leaves the slot alone.
Quit-arm events map to `none`: they are never delivered as commands. -/
def eventCommand : Event → Option (Option MovementCommand)
  | Event.KeyDown (some Keycode.Left) false => some (some (MovementCommand.Move Direction.Left))
  | Event.KeyDown (some Keycode.Right) false => some (some (MovementCommand.Move Direction.Right))
  | Event.KeyDown (some Keycode.Up) false => some (some (MovementCommand.Move Direction.Up))
  | Event.KeyDown (some Keycode.Down) false => some (some (MovementCommand.Move Direction.Down))
  | Event.KeyUp (some Keycode.Left) false => some (some MovementCommand.Stop)
  | Event.KeyUp (some Keycode.Right) false => some (some MovementCommand.Stop)
  | Event.KeyUp (some Keycode.Up) false => some (some MovementCommand.Stop)
  | Event.KeyUp (some Keycode.Down) false => some (some MovementCommand.Stop)
  | _ => none

/-- Outcome of one iteration of the `'running` loop. -/
structure IterationOutcome where
  world : List Entity
  ranUpdate : Bool
  ranRender : Bool
  continues : Bool
deriving DecidableEq, Repr

/-- One iteration of the `'running` loop in `main`: the local command slot
starts at `none`, the pending events are drained, and if the drain hit a quit
arm the loop breaks at once — the resource write, the dispatch (update) and
the render of that iteration are all skipped. Otherwise the drained command is
written to the resource, the dispatcher runs, and the frame is rendered. -/
def loopIteration (events : List Event) (w : List Entity) : IterationOutcome :=
  match drainEvents events none with
  | DrainResult.quit =>
      { world := w, ranUpdate := false, ranRender := false, continues := false }
  | DrainResult.command cmd =>
      { world := frameUpdate cmd w, ranUpdate := true, ranRender := true, continues := true }

/-! Helper lemmas. -/

theorem frameUpdate_eq_map (cmd : Option MovementCommand) (w : List Entity) :
    frameUpdate cmd w = w.map (entityFrame cmd) := by
  induction w with
  | nil => rfl
  | cons e w ih =>
      simp only [frameUpdate, keyboardStep, aiStep, physicsStep, animatorStep,
        List.map_cons, List.zipWith_cons_cons]
      congr 1
      rcases e with ⟨t, pos, v, s, a⟩
      cases t <;> rfl

theorem drainEvents_cons_of_not_quit (e : Event) (es : List Event)
    (acc : Option MovementCommand) (h : isQuitEvent e = false) :
    drainEvents (e :: es) acc = drainEvents es ((eventCommand e).getD acc) := by
  rcases e with _ | ⟨kc, rep⟩ | ⟨kc, rep⟩ | _
  · simp [isQuitEvent] at h
  · rcases kc with _ | k
    · rfl
    · cases k <;> cases rep <;> first | rfl | simp [isQuitEvent] at h
  · rcases kc with _ | k
    · rfl
    · cases k <;> cases rep <;> rfl
  · rfl

theorem drainEvents_quit_head (e : Event) (es : List Event)
    (acc : Option MovementCommand) (h : isQuitEvent e = true) :
    drainEvents (e :: es) acc = DrainResult.quit := by
  rcases e with _ | ⟨kc, rep⟩ | ⟨kc, rep⟩ | _
  · rfl
  · rcases kc with _ | k
    · simp [isQuitEvent] at h
    · cases k <;> cases rep <;> first | rfl | simp [isQuitEvent] at h
  · cases rep <;> simp [isQuitEvent] at h
  · simp [isQuitEvent] at h

theorem drainEvents_append_of_not_quit (es ts : List Event)
    (acc : Option MovementCommand) (h : ∀ e ∈ es, isQuitEvent e = false) :
    drainEvents (es ++ ts) acc =
      drainEvents ts (es.foldl (fun a e => (eventCommand e).getD a) acc) := by
  induction es generalizing acc with
  | nil => rfl
  | cons e es ih =>
      rw [List.cons_append,
        drainEvents_cons_of_not_quit e _ acc (h e (List.mem_cons_self e es)),
        ih _ (fun x hx => h x (List.mem_cons_of_mem e hx)), List.foldl_cons]

theorem drainEvents_eq_foldl (es : List Event) (acc : Option MovementCommand)
    (h : ∀ e ∈ es, isQuitEvent e = false) :
    drainEvents es acc =
      DrainResult.command (es.foldl (fun a e => (eventCommand e).getD a) acc) := by
  have := drainEvents_append_of_not_quit es [] acc h
  simpa using this

theorem foldl_getD_of_all_none (ts : List Event) (acc : Option MovementCommand)
    (h : ∀ e ∈ ts, eventCommand e = none) :
    ts.foldl (fun a e => (eventCommand e).getD a) acc = acc := by
  induction ts generalizing acc with
  | nil => rfl
  | cons e ts ih =>
      rw [List.foldl_cons, h e (List.mem_cons_self e ts), Option.getD_none]
      exact ih acc (fun x hx => h x (List.mem_cons_of_mem e hx))

theorem isQuitEvent_false_of_eventCommand (e : Event) (c : Option MovementCommand)
    (h : eventCommand e = some c) : isQuitEvent e = false := by
  rcases e with _ | ⟨kc, rep⟩ | ⟨kc, rep⟩ | _
  · simp [eventCommand] at h
  · rcases kc with _ | k
    · simp [eventCommand] at h
    · cases k <;> cases rep <;> first | rfl | simp [eventCommand] at h
  · rfl
  · rfl

/-! Claim theorems. -/

/-- C1: one Physics step displaces an entity's position by exactly speed times
the unit vector of its velocity's direction when speed > 0 (Up = -y, Down = +y,
Left = -x, Right = +x), over unbounded integer positions with no clamping; with
speed 0 the position is unchanged; and after a Move(d) command, N physics steps
move the position by exactly N times the step vector of d — no drift and no
diagonal component. -/
theorem physics_displacement_exact (pos : Point) (v : Velocity) (d : Direction) (N : Nat) :
    (step_vector v.speed Direction.Up = { x := 0, y := -v.speed } ∧
     step_vector v.speed Direction.Down = { x := 0, y := v.speed } ∧
     step_vector v.speed Direction.Left = { x := -v.speed, y := 0 } ∧
     step_vector v.speed Direction.Right = { x := v.speed, y := 0 }) ∧
    (v.speed > 0 → physicsStepEntity pos v = pointAdd pos (step_vector v.speed v.direction)) ∧
    (v.speed = 0 → physicsStepEntity pos v = pos) ∧
    ((fun p => physicsStepEntity p (keyboardVelocity (some (MovementCommand.Move d)) v))^[N] pos
      = pointAdd pos (pointSmul N (step_vector PLAYER_MOVEMENT_SPEED d))) := by
  refine ⟨⟨rfl, rfl, rfl, rfl⟩, ?_, ?_, ?_⟩
  · intro h
    simp [physicsStepEntity, h]
  · intro h
    simp [physicsStepEntity, h]
  · induction N with
    | zero =>
        rcases pos with ⟨px, py⟩
        simp [pointAdd, pointSmul]
    | succ n ih =>
        rw [Function.iterate_succ_apply', ih]
        have hs : (0 : Int) < PLAYER_MOVEMENT_SPEED := by decide
        simp only [physicsStepEntity, keyboardVelocity, hs, if_true]
        generalize step_vector PLAYER_MOVEMENT_SPEED d = sv
        rcases pos with ⟨px, py⟩
        rcases sv with ⟨sx, sy⟩
        simp only [pointAdd, pointSmul, Point.mk.injEq]
        constructor <;> push_cast <;> ring

/-- Witness for C1: concrete physics steps, with both speed hypotheses
discharged at speed 2 and speed 0. -/
theorem physics_displacement_exact_witness :
    physicsStepEntity { x := 3, y := 4 } { speed := 2, direction := Direction.Up } =
      pointAdd { x := 3, y := 4 } (step_vector 2 Direction.Up) ∧
    physicsStepEntity { x := 3, y := 4 } { speed := 0, direction := Direction.Up } =
      { x := 3, y := 4 } ∧
    (fun p => physicsStepEntity p
        (keyboardVelocity (some (MovementCommand.Move Direction.Left))
          { speed := 0, direction := Direction.Up }))^[4] { x := 3, y := 4 } =
      pointAdd { x := 3, y := 4 } (pointSmul 4 (step_vector PLAYER_MOVEMENT_SPEED Direction.Left)) :=
  ⟨(physics_displacement_exact { x := 3, y := 4 } { speed := 2, direction := Direction.Up }
      Direction.Left 4).2.1 (by decide),
   (physics_displacement_exact { x := 3, y := 4 } { speed := 0, direction := Direction.Up }
      Direction.Left 4).2.2.1 rfl,
   (physics_displacement_exact { x := 3, y := 4 } { speed := 0, direction := Direction.Up }
      Direction.Left 4).2.2.2⟩

/-- C2: one Keyboard step maps Move(d) to the fixed non-zero speed constant
with direction d, Stop to speed 0 with the direction untouched, and no command
to an unchanged velocity — on every KeyboardControlled entity and only those —
and it is a total function on any world, whatever the number (zero, one, or
many) of tagged entities. -/
theorem keyboard_sets_velocity (cmd : Option MovementCommand) (w : List Entity)
    (v : Velocity) (d : Direction) (i : Nat) :
    (keyboardVelocity (some (MovementCommand.Move d)) v =
        { speed := PLAYER_MOVEMENT_SPEED, direction := d } ∧
      PLAYER_MOVEMENT_SPEED ≠ 0) ∧
    keyboardVelocity (some MovementCommand.Stop) v = { speed := 0, direction := v.direction } ∧
    keyboardVelocity none v = v ∧
    (keyboardStep cmd w).length = w.length ∧
    (keyboardStep cmd w)[i]? = (w[i]?).map fun e =>
      if e.tag = Tag.KeyboardControlled then { e with velocity := keyboardVelocity cmd e.velocity }
      else e := by
  refine ⟨⟨rfl, by decide⟩, ?_, rfl, ?_, ?_⟩
  · rcases v with ⟨s, dir⟩
    rfl
  · simp [keyboardStep]
  · simp [keyboardStep]

/-- Witness for C2: the Keyboard step applied at a concrete command, velocity
and two-entity world. -/
theorem keyboard_sets_velocity_witness :
    keyboardVelocity (some (MovementCommand.Move Direction.Up))
        { speed := 0, direction := Direction.Right } =
      { speed := PLAYER_MOVEMENT_SPEED, direction := Direction.Up } :=
  (keyboard_sets_velocity (some (MovementCommand.Move Direction.Up)) initialWorld
    { speed := 0, direction := Direction.Right } Direction.Up 0).1.1

/-- C4 counterexample: the dispatcher registers AI with an empty dependency
list, so nothing orders Keyboard before AI — the claimed Keyboard → AI edge of
the dependency order does not exist. -/
theorem dispatcher_no_keyboard_before_ai :
    ¬ mustRunBefore SystemName.Keyboard SystemName.AI := by decide

/-- C4 amended: both Keyboard and AI complete before either Physics or
Animator starts, Physics and Animator are mutually unordered — and Keyboard
and AI are likewise mutually unordered, each registered with an empty
dependency list. -/
theorem dispatcher_dependency_graph :
    dispatcherDeps SystemName.Keyboard = [] ∧
    dispatcherDeps SystemName.AI = [] ∧
    dispatcherDeps SystemName.Physics = [SystemName.Keyboard, SystemName.AI] ∧
    dispatcherDeps SystemName.Animator = [SystemName.Keyboard, SystemName.AI] ∧
    mustRunBefore SystemName.Keyboard SystemName.Physics ∧
    mustRunBefore SystemName.AI SystemName.Physics ∧
    mustRunBefore SystemName.Keyboard SystemName.Animator ∧
    mustRunBefore SystemName.AI SystemName.Animator ∧
    ¬ mustRunBefore SystemName.Physics SystemName.Animator ∧
    ¬ mustRunBefore SystemName.Animator SystemName.Physics ∧
    ¬ mustRunBefore SystemName.Keyboard SystemName.AI ∧
    ¬ mustRunBefore SystemName.AI SystemName.Keyboard := by decide

/-- C6: after setup, exactly 4 entities exist — the KeyboardControlled player
at (0,0) and three Enemy entities at (-150,-150), (150,-190), (-150,170) — and
each has speed 0, direction Right, frame counter 0, and frame 0 of its Right
walk sequence as its displayed sprite. -/
theorem initial_world_state :
    initialWorld.length = 4 ∧
    initialWorld.map Entity.tag = [Tag.KeyboardControlled, Tag.Enemy, Tag.Enemy, Tag.Enemy] ∧
    initialWorld.map (fun e => e.position) =
      [{ x := 0, y := 0 }, { x := -150, y := -150 }, { x := 150, y := -190 },
       { x := -150, y := 170 }] ∧
    ∀ e ∈ initialWorld,
      e.velocity.speed = 0 ∧ e.velocity.direction = Direction.Right ∧
      e.animation.current_frame = 0 ∧
      e.sprite = (e.animation.framesFor Direction.Right).getD 0 defaultSprite := by
  refine ⟨rfl, rfl, by decide, by decide⟩

/-- C10: for any spritesheet id, top-left frame rectangle and direction,
character_animation_frames returns exactly 3 sprites on that spritesheet, the
i-th at x = x0 + i*w with shared y = y0 + h*row(direction), each of region
width w and height h, where the row map sends Down to 0, Left to 1, Right to 2
and Up to 3 and is injective — four distinct, aligned spritesheet rows. -/
theorem character_frames_layout (spritesheet : Nat) (tlf : Rect) (d : Direction) :
    (character_animation_frames spritesheet tlf d).length = 3 ∧
    (∀ i : Fin 3,
      (character_animation_frames spritesheet tlf d).getD i.val defaultSprite =
        { spritesheet := spritesheet
          region :=
            { x := tlf.x + (tlf.width : Int) * (i.val : Int)
              y := tlf.y + (tlf.height : Int) * direction_spritesheet_row d
              width := tlf.width
              height := tlf.height } }) ∧
    (direction_spritesheet_row Direction.Down = 0 ∧
     direction_spritesheet_row Direction.Left = 1 ∧
     direction_spritesheet_row Direction.Right = 2 ∧
     direction_spritesheet_row Direction.Up = 3) ∧
    ([Direction.Up, Direction.Down, Direction.Left, Direction.Right].map
      direction_spritesheet_row).Nodup := by
  refine ⟨rfl, ?_, ⟨rfl, rfl, rfl, rfl⟩, by decide⟩
  intro i
  fin_cases i <;> rfl

/-- C3: one Animator step with speed 0 shows frame 0 of the current
direction's sequence and resets the frame counter; with speed > 0 and an
unchanged direction it advances the counter and shows frame
(counter / frame_divisor) % 3 of the current direction's sequence — a walk
cycle of period 3 over a divisor greater than 1; and a direction change while
moving resets to frame 0 of the new direction's sequence on that same step. -/
theorem animator_frame_selection (prevDir : Direction) (v : Velocity)
    (anim : MovementAnimation) (s : Sprite) (c : Nat) :
    (v.speed = 0 →
      animatorStepEntity prevDir v anim s =
        ({ anim with current_frame := 0 },
         (anim.framesFor v.direction).getD 0 defaultSprite)) ∧
    (v.speed > 0 → v.direction = prevDir →
      animatorStepEntity prevDir v anim s =
        ({ anim with current_frame := anim.current_frame + 1 },
         (anim.framesFor v.direction).getD
           ((anim.current_frame + 1) / frame_divisor % 3) defaultSprite)) ∧
    (v.speed > 0 → v.direction ≠ prevDir →
      animatorStepEntity prevDir v anim s =
        ({ anim with current_frame := 0 },
         (anim.framesFor v.direction).getD 0 defaultSprite)) ∧
    ((c + 3 * frame_divisor) / frame_divisor % 3 = c / frame_divisor % 3) ∧
    (c / frame_divisor % 3 < 3) ∧
    1 < frame_divisor := by
  have hdiv : frame_divisor = 5 := rfl
  refine ⟨?_, ?_, ?_, ?_, ?_, by decide⟩
  · intro h
    simp [animatorStepEntity, h]
  · intro h hd
    have h0 : ¬ v.speed = 0 := by omega
    simp [animatorStepEntity, h0, hd]
  · intro h hd
    have h0 : ¬ v.speed = 0 := by omega
    simp [animatorStepEntity, h0, hd]
  · rw [hdiv]
    omega
  · rw [hdiv]
    omega

/-- Witness for C3: the Animator step on the player's animation, at speed 0
(idle reset), at speed 20 with the direction kept (advancing counter), and at
speed 20 with the direction changed (immediate reset to the new sequence). -/
theorem animator_frame_selection_witness :
    animatorStepEntity Direction.Right { speed := 0, direction := Direction.Right }
        (initialize_player 0).animation defaultSprite =
      ({ (initialize_player 0).animation with current_frame := 0 },
       ((initialize_player 0).animation.framesFor Direction.Right).getD 0 defaultSprite) ∧
    animatorStepEntity Direction.Right { speed := 20, direction := Direction.Right }
        (initialize_player 0).animation defaultSprite =
      ({ (initialize_player 0).animation with current_frame :=
          (initialize_player 0).animation.current_frame + 1 },
       ((initialize_player 0).animation.framesFor Direction.Right).getD
         (((initialize_player 0).animation.current_frame + 1) / frame_divisor % 3)
         defaultSprite) ∧
    animatorStepEntity Direction.Right { speed := 20, direction := Direction.Up }
        (initialize_player 0).animation defaultSprite =
      ({ (initialize_player 0).animation with current_frame := 0 },
       ((initialize_player 0).animation.framesFor Direction.Up).getD 0 defaultSprite) :=
  ⟨(animator_frame_selection Direction.Right { speed := 0, direction := Direction.Right }
      (initialize_player 0).animation defaultSprite 0).1 rfl,
   (animator_frame_selection Direction.Right { speed := 20, direction := Direction.Right }
      (initialize_player 0).animation defaultSprite 0).2.1 (by decide) rfl,
   (animator_frame_selection Direction.Right { speed := 20, direction := Direction.Up }
      (initialize_player 0).animation defaultSprite 0).2.2.1 (by decide) (by decide)⟩

/-- C5: the velocity an Enemy-tagged entity carries after a frame update does
not depend on the Pending Command — two frame updates of the same world under
any two commands agree on every Enemy entity's velocity. -/
theorem enemy_velocity_command_independent (w : List Entity)
    (c1 c2 : Option MovementCommand) (i : Nat) (e : Entity)
    (he : w[i]? = some e) (ht : e.tag = Tag.Enemy) :
    ((frameUpdate c1 w)[i]?).map Entity.velocity =
      ((frameUpdate c2 w)[i]?).map Entity.velocity := by
  rw [frameUpdate_eq_map, frameUpdate_eq_map]
  simp only [List.getElem?_map, he, Option.map_some']
  simp [entityFrame, ht]

/-- Witness for C5: the first enemy of the initial world gets the same
velocity whether the frame runs under no command or under Move(Up). -/
theorem enemy_velocity_command_independent_witness :
    ((frameUpdate none initialWorld)[1]?).map Entity.velocity =
      ((frameUpdate (some (MovementCommand.Move Direction.Up)) initialWorld)[1]?).map
        Entity.velocity :=
  enemy_velocity_command_independent initialWorld none
    (some (MovementCommand.Move Direction.Up)) 1
    (initialize_enemy 1 { x := -150, y := -150 }) rfl rfl

/-- C7: the command slot of a frame starts at none and is produced only by
translating that frame's drained events — non-repeat arrow key-downs map to
the matching Move, non-repeat arrow key-ups map to Stop, repeat events
translate to nothing, the quit arms (window quit, Escape key-down) never
produce a command — and with no relevant event the slot stays none, so the
command Keyboard reads never carries over from an earlier frame. -/
theorem pending_command_translation (events : List Event) (k : Keycode) (b : Bool) :
    (eventCommand (Event.KeyDown (some Keycode.Left) false) =
        some (some (MovementCommand.Move Direction.Left)) ∧
      eventCommand (Event.KeyDown (some Keycode.Right) false) =
        some (some (MovementCommand.Move Direction.Right)) ∧
      eventCommand (Event.KeyDown (some Keycode.Up) false) =
        some (some (MovementCommand.Move Direction.Up)) ∧
      eventCommand (Event.KeyDown (some Keycode.Down) false) =
        some (some (MovementCommand.Move Direction.Down)) ∧
      eventCommand (Event.KeyUp (some Keycode.Left) false) = some (some MovementCommand.Stop) ∧
      eventCommand (Event.KeyUp (some Keycode.Right) false) = some (some MovementCommand.Stop) ∧
      eventCommand (Event.KeyUp (some Keycode.Up) false) = some (some MovementCommand.Stop) ∧
      eventCommand (Event.KeyUp (some Keycode.Down) false) = some (some MovementCommand.Stop)) ∧
    (eventCommand (Event.KeyDown (some k) true) = none ∧
      eventCommand (Event.KeyUp (some k) true) = none) ∧
    (isQuitEvent Event.Quit = true ∧ isQuitEvent (Event.KeyDown (some Keycode.Escape) b) = true ∧
      eventCommand Event.Quit = none ∧
      eventCommand (Event.KeyDown (some Keycode.Escape) b) = none) ∧
    ((∀ e ∈ events, isQuitEvent e = false) →
      drainEvents events none =
        DrainResult.command (events.foldl (fun a e => (eventCommand e).getD a) none)) ∧
    ((∀ e ∈ events, isQuitEvent e = false ∧ eventCommand e = none) →
      drainEvents events none = DrainResult.command none) ∧
    (∀ w cmd, drainEvents events none = DrainResult.command cmd →
      loopIteration events w =
        { world := frameUpdate cmd w, ranUpdate := true, ranRender := true,
          continues := true }) := by
  refine ⟨⟨rfl, rfl, rfl, rfl, rfl, rfl, rfl, rfl⟩, ⟨?_, ?_⟩, ⟨rfl, ?_, rfl, ?_⟩, ?_, ?_, ?_⟩
  · cases k <;> rfl
  · cases k <;> rfl
  · cases b <;> rfl
  · cases b <;> rfl
  · intro h
    exact drainEvents_eq_foldl events none h
  · intro h
    rw [drainEvents_eq_foldl events none (fun e he => (h e he).1),
      foldl_getD_of_all_none events none (fun e he => (h e he).2)]
  · intro w cmd h
    simp [loopIteration, h]

/-- Witness for C7: a frame whose drained events are a non-repeat Left
key-down followed by a repeat Left key-up delivers Move(Left). -/
theorem pending_command_translation_witness :
    drainEvents [Event.KeyDown (some Keycode.Left) false, Event.KeyUp (some Keycode.Left) true]
        none =
      DrainResult.command
        ([Event.KeyDown (some Keycode.Left) false,
          Event.KeyUp (some Keycode.Left) true].foldl
          (fun a e => (eventCommand e).getD a) none) :=
  (pending_command_translation
    [Event.KeyDown (some Keycode.Left) false, Event.KeyUp (some Keycode.Left) true]
    Keycode.Left false).2.2.2.1 (by decide)

/-- C8 counterexample: on a frame whose events contain a quit event, the code
breaks out of the loop during event draining — the iteration's update and
render are skipped and the world is left untouched, even though a completed
update would have changed it (the player here is moving). The claim's
assertion that the quit iteration still completes is therefore false. -/
theorem quit_skips_update_and_render :
    (loopIteration [Event.Quit]
        [{ initialize_player 0 with
            velocity := { speed := 20, direction := Direction.Right } }]).ranUpdate = false ∧
    (loopIteration [Event.Quit]
        [{ initialize_player 0 with
            velocity := { speed := 20, direction := Direction.Right } }]).ranRender = false ∧
    (loopIteration [Event.Quit]
        [{ initialize_player 0 with
            velocity := { speed := 20, direction := Direction.Right } }]).continues = false ∧
    (loopIteration [Event.Quit]
        [{ initialize_player 0 with
            velocity := { speed := 20, direction := Direction.Right } }]).world =
      [{ initialize_player 0 with
          velocity := { speed := 20, direction := Direction.Right } }] ∧
    frameUpdate none
        [{ initialize_player 0 with
            velocity := { speed := 20, direction := Direction.Right } }] ≠
      [{ initialize_player 0 with
          velocity := { speed := 20, direction := Direction.Right } }] := by
  refine ⟨rfl, rfl, rfl, rfl, by decide⟩

/-- C8 amended: when a quit event or an Escape key-down is drained, the loop
exits immediately — the remaining events of the drain and the iteration's
update and render are all skipped and the world is left as it was; a frame
that drains to a command instead completes its update and render and
continues. -/
theorem quit_exits_immediately (events es : List Event) (w : List Entity) (e : Event) :
    (isQuitEvent e = true → drainEvents (e :: es) none = DrainResult.quit) ∧
    (drainEvents events none = DrainResult.quit →
      loopIteration events w =
        { world := w, ranUpdate := false, ranRender := false, continues := false }) ∧
    (∀ cmd, drainEvents events none = DrainResult.command cmd →
      loopIteration events w =
        { world := frameUpdate cmd w, ranUpdate := true, ranRender := true,
          continues := true }) := by
  refine ⟨?_, ?_, ?_⟩
  · intro h
    exact drainEvents_quit_head e es none h
  · intro h
    simp [loopIteration, h]
  · intro cmd h
    simp [loopIteration, h]

/-- Witness for C8 amended: an Escape key-down aborts the frame even with
events still queued behind it, leaving the initial world untouched. -/
theorem quit_exits_immediately_witness :
    drainEvents [Event.KeyDown (some Keycode.Escape) false, Event.KeyDown (some Keycode.Left) false]
        none = DrainResult.quit ∧
    loopIteration [Event.Quit] initialWorld =
      { world := initialWorld, ranUpdate := false, ranRender := false, continues := false } :=
  ⟨(quit_exits_immediately [Event.Quit] [Event.KeyDown (some Keycode.Left) false] initialWorld
      (Event.KeyDown (some Keycode.Escape) false)).1 rfl,
   (quit_exits_immediately [Event.Quit] [] initialWorld Event.Quit).2.1 rfl⟩

/-- C9: when a frame drains several relevant arrow events (and no quit event),
the command delivered to Keyboard is the translation of the last relevant
event in drain order; everything the earlier ones wrote into the slot is
overwritten, and trailing irrelevant events leave the slot alone. -/
theorem last_relevant_event_wins (es ts : List Event) (e : Event) (c : MovementCommand)
    (h1 : ∀ x ∈ es, isQuitEvent x = false)
    (he : eventCommand e = some (some c))
    (h2 : ∀ x ∈ ts, isQuitEvent x = false ∧ eventCommand x = none) :
    drainEvents (es ++ e :: ts) none = DrainResult.command (some c) := by
  rw [drainEvents_append_of_not_quit es (e :: ts) none h1,
    drainEvents_cons_of_not_quit e ts _ (isQuitEvent_false_of_eventCommand e (some c) he),
    he, Option.getD_some,
    drainEvents_eq_foldl ts (some c) (fun x hx => (h2 x hx).1),
    foldl_getD_of_all_none ts (some c) (fun x hx => (h2 x hx).2)]

/-- Witness for C9: a non-repeat Right key-down followed by a non-repeat Right
key-up and a trailing repeat key-down delivers Stop, the translation of the
last relevant event. -/
theorem last_relevant_event_wins_witness :
    drainEvents
        [Event.KeyDown (some Keycode.Right) false, Event.KeyUp (some Keycode.Right) false,
         Event.KeyDown (some Keycode.Up) true] none =
      DrainResult.command (some MovementCommand.Stop) :=
  last_relevant_event_wins [Event.KeyDown (some Keycode.Right) false]
    [Event.KeyDown (some Keycode.Up) true] (Event.KeyUp (some Keycode.Right) false)
    MovementCommand.Stop (by decide) rfl (by decide)

end Game
